import Mathlib

/-!
# Verification of the CFS Limit Checker (LC) command handling routines

Shallow embedding of `fsw/src/lc_cmds.c` (LC version 2.2.1).  The mutable
application state (`LC_AppData`, the watchpoint results table WRT and the
actionpoint results table ART of `LC_OperData`) is modelled as a Lean
structure; each command handler is a pure function on that state.  Table
sizes `LC_MAX_WATCHPOINTS` / `LC_MAX_ACTIONPOINTS` are the lengths of the
embedded lists.  Machine integers are `Nat`; the two 8-bit command counters
wrap explicitly mod 256 (`inc8`).
-/

/-! ## Enumerated constants

The numeric values below come from headers (`lc_msgdefs.h`) that are not
part of this snapshot; only their distinctness is used outside of the
housekeeping packing, whose two-bit codes are fixed by the spec. -/

/-- Modelled from the spec: LC application run states (values from the
missing `lc_msgdefs.h`; only distinctness matters here). -/
def LC_STATE_ACTIVE : Nat := 1

/-- Modelled from the spec: LC application run state PASSIVE. -/
def LC_STATE_PASSIVE : Nat := 2

/-- Modelled from the spec: LC application run state DISABLED. -/
def LC_STATE_DISABLED : Nat := 3

/-- Modelled from the spec: actionpoint state ACTIVE. -/
def LC_APSTATE_ACTIVE : Nat := 1

/-- Modelled from the spec: actionpoint state PASSIVE. -/
def LC_APSTATE_PASSIVE : Nat := 2

/-- Modelled from the spec: actionpoint state DISABLED. -/
def LC_APSTATE_DISABLED : Nat := 3

/-- Modelled from the spec: actionpoint state PERMOFF (permanently off). -/
def LC_APSTATE_PERMOFF : Nat := 4

/-- Modelled from the spec: actionpoint state NOT_USED
(`LC_APSTATE_ACTION_NOT_USED` in the source). -/
def LC_APSTATE_ACTION_NOT_USED : Nat := 0xFF

/-- Modelled from the spec: watchpoint result FALSE. -/
def LC_WATCH_FALSE : Nat := 0

/-- Modelled from the spec: watchpoint result TRUE. -/
def LC_WATCH_TRUE : Nat := 1

/-- Modelled from the spec: watchpoint result ERROR. -/
def LC_WATCH_ERROR : Nat := 2

/-- Modelled from the spec: watchpoint result STALE. -/
def LC_WATCH_STALE : Nat := 0xFF

/-- Modelled from the spec: actionpoint result PASS. -/
def LC_ACTION_PASS : Nat := 0

/-- Modelled from the spec: actionpoint result FAIL. -/
def LC_ACTION_FAIL : Nat := 1

/-- Modelled from the spec: actionpoint result ERROR. -/
def LC_ACTION_ERROR : Nat := 2

/-- Modelled from the spec: actionpoint result STALE. -/
def LC_ACTION_STALE : Nat := 0xFF

/-- Modelled from the spec: heritage "all actionpoints" sentinel
(command index fields are uint16, the sentinel is its maximum). -/
def LC_ALL_ACTIONPOINTS : Nat := 0xFFFF

/-- Modelled from the spec: heritage "all watchpoints" sentinel. -/
def LC_ALL_WATCHPOINTS : Nat := 0xFFFF

/-- Modelled from the spec: two-bit housekeeping code, `STALE=00`. -/
def LC_HKWR_STALE : Nat := 0

/-- Modelled from the spec: two-bit housekeeping code, `FALSE=01`. -/
def LC_HKWR_FALSE : Nat := 1

/-- Modelled from the spec: two-bit housekeeping code, `TRUE=10`. -/
def LC_HKWR_TRUE : Nat := 2

/-- Modelled from the spec: two-bit housekeeping code, `ERROR=11`. -/
def LC_HKWR_ERROR : Nat := 3

/-- Modelled from the spec: two-bit housekeeping AP result code `STALE=00`. -/
def LC_HKAR_STALE : Nat := 0

/-- Modelled from the spec: two-bit housekeeping AP result code `PASS=01`. -/
def LC_HKAR_PASS : Nat := 1

/-- Modelled from the spec: two-bit housekeeping AP result code `FAIL=10`. -/
def LC_HKAR_FAIL : Nat := 2

/-- Modelled from the spec: two-bit housekeeping AP result code `ERROR=11`. -/
def LC_HKAR_ERROR : Nat := 3

/-- Modelled from the spec: two-bit housekeeping AP state code `NOT_USED=00`. -/
def LC_HKAR_STATE_NOT_USED : Nat := 0

/-- Modelled from the spec: two-bit housekeeping AP state code `ACTIVE=01`. -/
def LC_HKAR_STATE_ACTIVE : Nat := 1

/-- Modelled from the spec: two-bit housekeeping AP state code `PASSIVE=10`. -/
def LC_HKAR_STATE_PASSIVE : Nat := 2

/-- Modelled from the spec: two-bit housekeeping AP state code `DISABLED=11`. -/
def LC_HKAR_STATE_DISABLED : Nat := 3

/-- Modelled from the spec: command function codes on `LC_CMD_MID`
(`NOOP=0, RESET=1, SET_LC_STATE=2, SET_AP_STATE=3, SET_AP_PERMOFF=4,
RESET_AP_STATS=5, RESET_WP_STATS=6`). -/
def LC_NOOP_CC : Nat := 0

/-- Modelled from the spec: command function code RESET=1. -/
def LC_RESET_CC : Nat := 1

/-- Modelled from the spec: command function code SET_LC_STATE=2. -/
def LC_SET_LC_STATE_CC : Nat := 2

/-- Modelled from the spec: command function code SET_AP_STATE=3. -/
def LC_SET_AP_STATE_CC : Nat := 3

/-- Modelled from the spec: command function code SET_AP_PERMOFF=4. -/
def LC_SET_AP_PERMOFF_CC : Nat := 4

/-- Modelled from the spec: command function code RESET_AP_STATS=5. -/
def LC_RESET_AP_STATS_CC : Nat := 5

/-- Modelled from the spec: command function code RESET_WP_STATS=6. -/
def LC_RESET_WP_STATS_CC : Nat := 6

/-- cFE success status returned by `LC_AppPipe`. -/
def CFE_SUCCESS : Int := 0

/-- 8-bit counter increment (`Counter++` on a `uint8`): the command counters
are 8 bits wide in the housekeeping layout. -/
def inc8 (n : Nat) : Nat := (n + 1) % 256

/-! ## Data model (from `lc_tbl.h`) -/

/-- `CFE_TIME_SysTime_t`: a (seconds, subseconds) timestamp. -/
structure CFE_TIME_SysTime_t where
  Seconds : Nat
  Subseconds : Nat
deriving DecidableEq, Inhabited

/-- `LC_WRTTransition_t`: watchpoint transition record (from `lc_tbl.h`). -/
structure LC_WRTTransition_t where
  Value : Nat
  DataType : Nat
  Timestamp : CFE_TIME_SysTime_t
deriving DecidableEq, Inhabited

/-- `LC_WRTEntry_t`: one watchpoint results table entry (from `lc_tbl.h`). -/
structure LC_WRTEntry_t where
  WatchResult : Nat
  CountdownToStale : Nat
  EvaluationCount : Nat
  FalseToTrueCount : Nat
  ConsecutiveTrueCount : Nat
  CumulativeTrueCount : Nat
  LastFalseToTrue : LC_WRTTransition_t
  LastTrueToFalse : LC_WRTTransition_t
deriving DecidableEq, Inhabited

/-- `LC_ARTEntry_t`: one actionpoint results table entry (from `lc_tbl.h`). -/
structure LC_ARTEntry_t where
  ActionResult : Nat
  CurrentState : Nat
  PassiveAPCount : Nat
  FailToPassCount : Nat
  PassToFailCount : Nat
  ConsecutiveFailCount : Nat
  CumulativeFailCount : Nat
  CumulativeRTSExecCount : Nat
  CumulativeEventMsgsSent : Nat
deriving DecidableEq, Inhabited

/-- `LC_AppData`: the scalar application state and counters. -/
structure LC_AppData_t where
  CmdCount : Nat
  CmdErrCount : Nat
  CurrentLCState : Nat
  APSampleCount : Nat
  MonitoredMsgCount : Nat
  RTSExecCount : Nat
  PassiveRTSExecCount : Nat
deriving DecidableEq, Inhabited

/-- The mutable state touched by the command handlers: `LC_AppData` plus the
two results tables of `LC_OperData`.  `LC_MAX_WATCHPOINTS` is `WRT.length`
and `LC_MAX_ACTIONPOINTS` is `ART.length`. -/
structure LCState where
  AppData : LC_AppData_t
  WRT : List LC_WRTEntry_t
  ART : List LC_ARTEntry_t
deriving DecidableEq, Inhabited

/-- Payload of the `LC_SampleAP_t` message. -/
structure LC_SampleAP_t where
  StartIndex : Nat
  EndIndex : Nat
  UpdateAge : Nat
deriving DecidableEq, Inhabited

/-! ## Command handlers (from `lc_cmds.c`)

`LC_VerifyMsgLength` lives in `lc_utils.c`, outside this snapshot; its
boolean outcome is passed in as the `validLen` argument of each handler. -/

/-- `LC_NoopCmd` (lc_cmds.c): bump `CmdCount` when the length checks out. -/
def LC_NoopCmd (validLen : Bool) (s : LCState) : LCState :=
  if validLen then
    { s with AppData := { s.AppData with CmdCount := inc8 s.AppData.CmdCount } }
  else s

/-- `LC_ResetCounters` (lc_cmds.c): zero the six scalar counters. -/
def LC_ResetCounters (a : LC_AppData_t) : LC_AppData_t :=
  { a with
    CmdCount := 0
    CmdErrCount := 0
    APSampleCount := 0
    MonitoredMsgCount := 0
    RTSExecCount := 0
    PassiveRTSExecCount := 0 }

/-- `LC_ResetCmd` (lc_cmds.c): reset the housekeeping counters. -/
def LC_ResetCmd (validLen : Bool) (s : LCState) : LCState :=
  if validLen then { s with AppData := LC_ResetCounters s.AppData } else s

/-- `LC_SetLCStateCmd` (lc_cmds.c): set the application run state. -/
def LC_SetLCStateCmd (validLen : Bool) (newLCState : Nat) (s : LCState) : LCState :=
  if validLen then
    if newLCState = LC_STATE_ACTIVE ∨ newLCState = LC_STATE_PASSIVE ∨
        newLCState = LC_STATE_DISABLED then
      { s with AppData := { s.AppData with
          CurrentLCState := newLCState
          CmdCount := inc8 s.AppData.CmdCount } }
    else
      { s with AppData := { s.AppData with CmdErrCount := inc8 s.AppData.CmdErrCount } }
  else s

/-- `LC_SetAPStateCmd` (lc_cmds.c): set the state of one or all actionpoints.
Entries whose current state is `NOT_USED` or `PERMOFF` are never written. -/
def LC_SetAPStateCmd (validLen : Bool) (apNumber newAPState : Nat) (s : LCState) : LCState :=
  if validLen then
    if newAPState = LC_APSTATE_ACTIVE ∨ newAPState = LC_APSTATE_PASSIVE ∨
        newAPState = LC_APSTATE_DISABLED then
      if apNumber = LC_ALL_ACTIONPOINTS then
        { s with
          ART := s.ART.map fun e =>
            if e.CurrentState ≠ LC_APSTATE_ACTION_NOT_USED ∧
                e.CurrentState ≠ LC_APSTATE_PERMOFF then
              { e with CurrentState := newAPState }
            else e
          AppData := { s.AppData with CmdCount := inc8 s.AppData.CmdCount } }
      else if apNumber < s.ART.length then
        if (s.ART.getD apNumber default).CurrentState ≠ LC_APSTATE_ACTION_NOT_USED ∧
            (s.ART.getD apNumber default).CurrentState ≠ LC_APSTATE_PERMOFF then
          { s with
            ART := s.ART.set apNumber
              { s.ART.getD apNumber default with CurrentState := newAPState }
            AppData := { s.AppData with CmdCount := inc8 s.AppData.CmdCount } }
        else
          { s with AppData := { s.AppData with CmdErrCount := inc8 s.AppData.CmdErrCount } }
      else
        { s with AppData := { s.AppData with CmdErrCount := inc8 s.AppData.CmdErrCount } }
    else
      { s with AppData := { s.AppData with CmdErrCount := inc8 s.AppData.CmdErrCount } }
  else s

/-- `LC_SetAPPermOffCmd` (lc_cmds.c): permanently disable one actionpoint.
The "all actionpoints" sentinel is invalid, and the target must currently be
`DISABLED`. -/
def LC_SetAPPermOffCmd (validLen : Bool) (apNumber : Nat) (s : LCState) : LCState :=
  if validLen then
    if apNumber = LC_ALL_ACTIONPOINTS ∨ apNumber ≥ s.ART.length then
      { s with AppData := { s.AppData with CmdErrCount := inc8 s.AppData.CmdErrCount } }
    else
      if (s.ART.getD apNumber default).CurrentState ≠ LC_APSTATE_DISABLED then
        { s with AppData := { s.AppData with CmdErrCount := inc8 s.AppData.CmdErrCount } }
      else
        { s with
          ART := s.ART.set apNumber
            { s.ART.getD apNumber default with CurrentState := LC_APSTATE_PERMOFF }
          AppData := { s.AppData with CmdCount := inc8 s.AppData.CmdCount } }
  else s

/-- Body of the `LC_ResetResultsAP` loop for one ART entry (lc_cmds.c).
With `resetStatsCmd = true` (the reset-AP-stats command) the state and most
recent result are kept; only the counters are zeroed. -/
def LC_ResetAPEntry (resetStatsCmd : Bool) (defaultState : Nat) (e : LC_ARTEntry_t) :
    LC_ARTEntry_t :=
  let e1 := if resetStatsCmd then e
    else { e with ActionResult := LC_ACTION_STALE, CurrentState := defaultState }
  { e1 with
    PassiveAPCount := 0
    FailToPassCount := 0
    PassToFailCount := 0
    ConsecutiveFailCount := 0
    CumulativeFailCount := 0
    CumulativeRTSExecCount := 0
    CumulativeEventMsgsSent := 0 }

/-- The `LC_ResetResultsAP` loop, walking the table with its running index.
`adt` carries the `DefaultState` column of the actionpoint definition table. -/
def LC_ResetResultsAPFrom (adt : List Nat) (StartIndex EndIndex : Nat)
    (resetStatsCmd : Bool) : Nat → List LC_ARTEntry_t → List LC_ARTEntry_t
  | _, [] => []
  | i, e :: rest =>
    (if StartIndex ≤ i ∧ i ≤ EndIndex then
      LC_ResetAPEntry resetStatsCmd (adt.getD i 0) e
    else e) :: LC_ResetResultsAPFrom adt StartIndex EndIndex resetStatsCmd (i + 1) rest

/-- `LC_ResetResultsAP` (lc_cmds.c): reset ART entries `StartIndex..EndIndex`. -/
def LC_ResetResultsAP (adt : List Nat) (StartIndex EndIndex : Nat) (resetStatsCmd : Bool)
    (art : List LC_ARTEntry_t) : List LC_ARTEntry_t :=
  LC_ResetResultsAPFrom adt StartIndex EndIndex resetStatsCmd 0 art

/-- `LC_ResetAPStatsCmd` (lc_cmds.c): reset stats for one or all actionpoints. -/
def LC_ResetAPStatsCmd (validLen : Bool) (apNumber : Nat) (adt : List Nat)
    (s : LCState) : LCState :=
  if validLen then
    if apNumber = LC_ALL_ACTIONPOINTS then
      { s with
        ART := LC_ResetResultsAP adt 0 (s.ART.length - 1) true s.ART
        AppData := { s.AppData with CmdCount := inc8 s.AppData.CmdCount } }
    else if apNumber < s.ART.length then
      { s with
        ART := LC_ResetResultsAP adt apNumber apNumber true s.ART
        AppData := { s.AppData with CmdCount := inc8 s.AppData.CmdCount } }
    else
      { s with AppData := { s.AppData with CmdErrCount := inc8 s.AppData.CmdErrCount } }
  else s

/-- Body of the `LC_ResetResultsWP` loop for one WRT entry (lc_cmds.c).
With `resetStatsCmd = true` the most recent result and countdown are kept;
the counters and the transition records (`Value` and `Timestamp`) are zeroed. -/
def LC_ResetWPEntry (resetStatsCmd : Bool) (e : LC_WRTEntry_t) : LC_WRTEntry_t :=
  let e1 := if resetStatsCmd then e
    else { e with WatchResult := LC_WATCH_STALE, CountdownToStale := 0 }
  { e1 with
    EvaluationCount := 0
    FalseToTrueCount := 0
    ConsecutiveTrueCount := 0
    CumulativeTrueCount := 0
    LastFalseToTrue := { e1.LastFalseToTrue with
      Value := 0
      Timestamp := { Seconds := 0, Subseconds := 0 } }
    LastTrueToFalse := { e1.LastTrueToFalse with
      Value := 0
      Timestamp := { Seconds := 0, Subseconds := 0 } } }

/-- The `LC_ResetResultsWP` loop, walking the table with its running index. -/
def LC_ResetResultsWPFrom (StartIndex EndIndex : Nat) (resetStatsCmd : Bool) :
    Nat → List LC_WRTEntry_t → List LC_WRTEntry_t
  | _, [] => []
  | i, e :: rest =>
    (if StartIndex ≤ i ∧ i ≤ EndIndex then LC_ResetWPEntry resetStatsCmd e else e) ::
      LC_ResetResultsWPFrom StartIndex EndIndex resetStatsCmd (i + 1) rest

/-- `LC_ResetResultsWP` (lc_cmds.c): reset WRT entries `StartIndex..EndIndex`. -/
def LC_ResetResultsWP (StartIndex EndIndex : Nat) (resetStatsCmd : Bool)
    (wrt : List LC_WRTEntry_t) : List LC_WRTEntry_t :=
  LC_ResetResultsWPFrom StartIndex EndIndex resetStatsCmd 0 wrt

/-- `LC_ResetWPStatsCmd` (lc_cmds.c): reset stats for one or all watchpoints. -/
def LC_ResetWPStatsCmd (validLen : Bool) (wpNumber : Nat) (s : LCState) : LCState :=
  if validLen then
    if wpNumber = LC_ALL_WATCHPOINTS then
      { s with
        WRT := LC_ResetResultsWP 0 (s.WRT.length - 1) true s.WRT
        AppData := { s.AppData with CmdCount := inc8 s.AppData.CmdCount } }
    else if wpNumber < s.WRT.length then
      { s with
        WRT := LC_ResetResultsWP wpNumber wpNumber true s.WRT
        AppData := { s.AppData with CmdCount := inc8 s.AppData.CmdCount } }
    else
      { s with AppData := { s.AppData with CmdErrCount := inc8 s.AppData.CmdErrCount } }
  else s

/-- One step of the watchpoint age walk in `LC_SampleAPReq` (lc_cmds.c,
lines 185-196): a non-zero `CountdownToStale` is decremented, and the
result turns `STALE` when it reaches zero. -/
def LC_AgeWRTEntry (e : LC_WRTEntry_t) : LC_WRTEntry_t :=
  if e.CountdownToStale ≠ 0 then
    if e.CountdownToStale - 1 = 0 then
      { e with CountdownToStale := e.CountdownToStale - 1, WatchResult := LC_WATCH_STALE }
    else
      { e with CountdownToStale := e.CountdownToStale - 1 }
  else e

/-- The full watchpoint age walk over the WRT. -/
def LC_UpdateWRTAges (wrt : List LC_WRTEntry_t) : List LC_WRTEntry_t :=
  wrt.map LC_AgeWRTEntry

/-- `LC_SampleAPReq` (lc_cmds.c).  `LC_SampleAPs` lives in `lc_action.c`,
outside this snapshot, and is passed in as the `sampleAPs` argument; per the
spec it updates only ART entries and application counters.  Besides the new
state, the range actually handed to `LC_SampleAPs` is returned (`none` when
the command is dropped), mirroring `ValidSampleCmd`. -/
def LC_SampleAPReq (sampleAPs : Nat → Nat → LCState → LCState) (validLen : Bool)
    (cmd : LC_SampleAP_t) (s : LCState) : LCState × Option (Nat × Nat) :=
  if validLen then
    if s.AppData.CurrentLCState ≠ LC_STATE_DISABLED then
      let sr : LCState × Option (Nat × Nat) :=
        if cmd.StartIndex = LC_ALL_ACTIONPOINTS ∧ cmd.EndIndex = LC_ALL_ACTIONPOINTS then
          (sampleAPs 0 (s.ART.length - 1) s, some (0, s.ART.length - 1))
        else if cmd.StartIndex ≤ cmd.EndIndex ∧ cmd.EndIndex < s.ART.length then
          (sampleAPs cmd.StartIndex cmd.EndIndex s, some (cmd.StartIndex, cmd.EndIndex))
        else
          (s, none)
      if cmd.UpdateAge ≠ 0 ∧ sr.2.isSome then
        ({ sr.1 with WRT := LC_UpdateWRTAges sr.1.WRT }, sr.2)
      else sr
    else (s, none)
  else (s, none)

/-- The fields of a command message on `LC_CMD_MID` that the handlers read.
`ValidLength` is the outcome of the handler's `LC_VerifyMsgLength` check
against its own expected size. -/
structure LC_CmdMsg where
  FcnCode : Nat
  ValidLength : Bool
  NewLCState : Nat
  APNumber : Nat
  NewAPState : Nat
  WPNumber : Nat
deriving DecidableEq, Inhabited

/-- The `LC_CMD_MID` arm of `LC_AppPipe` (lc_cmds.c): dispatch on the
function code; an unknown code bumps `CmdErrCount`.  The returned status is
`CFE_SUCCESS` — only the housekeeping arm can return anything else. -/
def LC_AppPipeCmd (adt : List Nat) (m : LC_CmdMsg) (s : LCState) : LCState × Int :=
  (if m.FcnCode = LC_NOOP_CC then LC_NoopCmd m.ValidLength s
   else if m.FcnCode = LC_RESET_CC then LC_ResetCmd m.ValidLength s
   else if m.FcnCode = LC_SET_LC_STATE_CC then
     LC_SetLCStateCmd m.ValidLength m.NewLCState s
   else if m.FcnCode = LC_SET_AP_STATE_CC then
     LC_SetAPStateCmd m.ValidLength m.APNumber m.NewAPState s
   else if m.FcnCode = LC_SET_AP_PERMOFF_CC then
     LC_SetAPPermOffCmd m.ValidLength m.APNumber s
   else if m.FcnCode = LC_RESET_AP_STATS_CC then
     LC_ResetAPStatsCmd m.ValidLength m.APNumber adt s
   else if m.FcnCode = LC_RESET_WP_STATS_CC then
     LC_ResetWPStatsCmd m.ValidLength m.WPNumber s
   else
     { s with AppData := { s.AppData with CmdErrCount := inc8 s.AppData.CmdErrCount } },
   CFE_SUCCESS)

/-! ## Housekeeping packer (from `LC_HousekeepingReq`, lc_cmds.c) -/

/-- The two-bit housekeeping code of one watch result, as produced by the
`switch` statements of the watch-results packing loop (unknown values fall
through to `LC_HKWR_ERROR`). -/
def LC_WPByteCode (r : Nat) : Nat :=
  if r = LC_WATCH_STALE then LC_HKWR_STALE
  else if r = LC_WATCH_FALSE then LC_HKWR_FALSE
  else if r = LC_WATCH_TRUE then LC_HKWR_TRUE
  else LC_HKWR_ERROR

/-- One byte of the packed watch results: watchpoint `TableIndex + 3` in
bits 7-6, `+ 2` in bits 5-4, `+ 1` in bits 3-2, `+ 0` in bits 1-0. -/
def LC_PackWPByte (r0 r1 r2 r3 : Nat) : Nat :=
  (LC_WPByteCode r3 <<< 6) ||| (LC_WPByteCode r2 <<< 4) |||
    (LC_WPByteCode r1 <<< 2) ||| LC_WPByteCode r0

/-- The watch-results packing loop: four results per output byte.
(`LC_MAX_WATCHPOINTS` is a multiple of four, as the loop requires.) -/
def LC_PackWPResults : List Nat → List Nat
  | r0 :: r1 :: r2 :: r3 :: rest => LC_PackWPByte r0 r1 r2 r3 :: LC_PackWPResults rest
  | _ => []

/-- The two-bit housekeeping code of one actionpoint state; `PERMOFF` and
unknown values fall through to `LC_HKAR_STATE_NOT_USED`. -/
def LC_APStateCode (st : Nat) : Nat :=
  if st = LC_APSTATE_ACTION_NOT_USED then LC_HKAR_STATE_NOT_USED
  else if st = LC_APSTATE_ACTIVE then LC_HKAR_STATE_ACTIVE
  else if st = LC_APSTATE_PASSIVE then LC_HKAR_STATE_PASSIVE
  else if st = LC_APSTATE_DISABLED then LC_HKAR_STATE_DISABLED
  else LC_HKAR_STATE_NOT_USED

/-- The two-bit housekeeping code of one action result (unknown values fall
through to `LC_HKAR_ERROR`). -/
def LC_APResultCode (r : Nat) : Nat :=
  if r = LC_ACTION_STALE then LC_HKAR_STALE
  else if r = LC_ACTION_PASS then LC_HKAR_PASS
  else if r = LC_ACTION_FAIL then LC_HKAR_FAIL
  else LC_HKAR_ERROR

/-- One byte of the packed action results: actionpoint `TableIndex + 1`
state in bits 7-6 and result in bits 5-4, actionpoint `TableIndex` state in
bits 3-2 and result in bits 1-0. -/
def LC_PackAPByte (a0 a1 : LC_ARTEntry_t) : Nat :=
  (LC_APStateCode a1.CurrentState <<< 6) ||| (LC_APResultCode a1.ActionResult <<< 4) |||
    (LC_APStateCode a0.CurrentState <<< 2) ||| LC_APResultCode a0.ActionResult

/-- The action-results packing loop: two entries per output byte, counting
`ACTIVE` actionpoints into the 8-bit `ActiveAPs` accumulator as it goes
(entry `TableIndex + 1` is examined first, as in the source).
(`LC_MAX_ACTIONPOINTS` is a multiple of two, as the loop requires.) -/
def LC_PackAPLoop : List LC_ARTEntry_t → Nat → List Nat × Nat
  | a0 :: a1 :: rest, active =>
    let acc1 := if a1.CurrentState = LC_APSTATE_ACTIVE then inc8 active else active
    let acc2 := if a0.CurrentState = LC_APSTATE_ACTIVE then inc8 acc1 else acc1
    (LC_PackAPByte a0 a1 :: (LC_PackAPLoop rest acc2).1, (LC_PackAPLoop rest acc2).2)
  | _, active => ([], active)

/-- The housekeeping payload assembled by `LC_HousekeepingReq` (the fixed
field order is part of the mission interface). -/
structure LC_HkPayload where
  CmdCount : Nat
  CmdErrCount : Nat
  CurrentLCState : Nat
  ActiveAPs : Nat
  APSampleCount : Nat
  PassiveRTSExecCount : Nat
  WPsInUse : Nat
  RTSExecCount : Nat
  MonitoredMsgCount : Nat
  WPResults : List Nat
  APResults : List Nat
deriving DecidableEq, Inhabited

/-- `LC_HousekeepingReq` (lc_cmds.c): on a valid-length request, copy the
scalar counters, recompute `ActiveAPs`, and pack the two results tables.
`watchpointCount` is `LC_OperData.WatchpointCount` (maintained by the watch
module, outside this snapshot).  Nothing is emitted on a length failure. -/
def LC_HousekeepingReq (validLen : Bool) (watchpointCount : Nat) (s : LCState) :
    Option LC_HkPayload :=
  if validLen then
    some
      { CmdCount := s.AppData.CmdCount
        CmdErrCount := s.AppData.CmdErrCount
        CurrentLCState := s.AppData.CurrentLCState
        ActiveAPs := (LC_PackAPLoop s.ART 0).2
        APSampleCount := s.AppData.APSampleCount
        PassiveRTSExecCount := s.AppData.PassiveRTSExecCount
        WPsInUse := watchpointCount
        RTSExecCount := s.AppData.RTSExecCount
        MonitoredMsgCount := s.AppData.MonitoredMsgCount
        WPResults := LC_PackWPResults (s.WRT.map fun e => e.WatchResult)
        APResults := (LC_PackAPLoop s.ART 0).1 }
  else none

/-! ## Helper lemmas -/

/-- Induction on a list two elements at a time. -/
theorem list_pair_ind {α : Type} (P : List α → Prop) (h0 : P []) (h1 : ∀ a, P [a])
    (h2 : ∀ a b l, P l → P (a :: b :: l)) (l : List α) : P l := by
  have key : ∀ m : List α, P m ∧ ∀ a, P (a :: m) := by
    intro m
    induction m with
    | nil => exact ⟨h0, h1⟩
    | cons b t ih => exact ⟨ih.2 b, fun a => h2 a b t ih.1⟩
  exact (key l).1

/-- Reading back the element just written by `List.set`. -/
theorem list_getD_set_self {α : Type} (d x : α) :
    ∀ (l : List α) (i : Nat), i < l.length → (l.set i x).getD i d = x := by
  intro l
  induction l with
  | nil => intro i h; simp at h
  | cons a t ih =>
    intro i h
    cases i with
    | zero => rfl
    | succ j => exact ih j (by simpa using h)

/-- `List.set` leaves the other positions alone. -/
theorem list_getD_set_ne {α : Type} (d x : α) :
    ∀ (l : List α) (i j : Nat), i ≠ j → (l.set i x).getD j d = l.getD j d := by
  intro l
  induction l with
  | nil => intro i j _; simp [List.set]
  | cons a t ih =>
    intro i j hij
    cases i with
    | zero =>
      cases j with
      | zero => exact absurd rfl hij
      | succ j2 => rfl
    | succ i2 =>
      cases j with
      | zero => rfl
      | succ j2 => exact ih i2 j2 (fun h => hij (by rw [h]))

/-- Reading a mapped list at an in-range position. -/
theorem list_getD_map {α β : Type} (f : α → β) (d : α) (d2 : β) :
    ∀ (l : List α) (i : Nat), i < l.length → (l.map f).getD i d2 = f (l.getD i d) := by
  intro l
  induction l with
  | nil => intro i h; simp at h
  | cons a t ih =>
    intro i h
    cases i with
    | zero => rfl
    | succ j => exact ih j (by simpa using h)

/-- `getD` four positions past a quadruple of cons cells. -/
theorem list_getD_cons4 {α : Type} (a b c d : α) (l : List α) (n : Nat) (x : α) :
    (a :: b :: c :: d :: l).getD (n + 4) x = l.getD n x := rfl

/-- Byte `k` of the packed watch results carries watchpoints `4k..4k+3`. -/
theorem LC_PackWPResults_getD :
    ∀ (k : Nat) (wrt : List Nat), 4 * k + 3 < wrt.length →
      (LC_PackWPResults wrt).getD k 0 =
        LC_PackWPByte (wrt.getD (4 * k) 0) (wrt.getD (4 * k + 1) 0)
          (wrt.getD (4 * k + 2) 0) (wrt.getD (4 * k + 3) 0) := by
  intro k
  induction k with
  | zero =>
    intro wrt h
    match wrt with
    | r0 :: r1 :: r2 :: r3 :: rest => rfl
    | [] => simp at h
    | [r0] => simp at h
    | [r0, r1] => simp at h
    | [r0, r1, r2] => simp at h
  | succ k ih =>
    intro wrt h
    match wrt with
    | [] => simp at h
    | [r0] => simp only [List.length_cons, List.length_nil] at h; omega
    | [r0, r1] => simp only [List.length_cons, List.length_nil] at h; omega
    | [r0, r1, r2] => simp only [List.length_cons, List.length_nil] at h; omega
    | r0 :: r1 :: r2 :: r3 :: rest =>
      have h4 : 4 * k + 3 < rest.length := by
        simp only [List.length_cons] at h
        omega
      calc (LC_PackWPResults (r0 :: r1 :: r2 :: r3 :: rest)).getD (k + 1) 0
          = (LC_PackWPResults rest).getD k 0 := rfl
        _ = LC_PackWPByte (rest.getD (4 * k) 0) (rest.getD (4 * k + 1) 0)
              (rest.getD (4 * k + 2) 0) (rest.getD (4 * k + 3) 0) := ih rest h4
        _ = LC_PackWPByte ((r0 :: r1 :: r2 :: r3 :: rest).getD (4 * (k + 1)) 0)
              ((r0 :: r1 :: r2 :: r3 :: rest).getD (4 * (k + 1) + 1) 0)
              ((r0 :: r1 :: r2 :: r3 :: rest).getD (4 * (k + 1) + 2) 0)
              ((r0 :: r1 :: r2 :: r3 :: rest).getD (4 * (k + 1) + 3) 0) := by
            rw [show 4 * (k + 1) = 4 * k + 4 from by ring,
              show 4 * k + 4 + 1 = 4 * k + 1 + 4 from by ring,
              show 4 * k + 4 + 2 = 4 * k + 2 + 4 from by ring,
              show 4 * k + 4 + 3 = 4 * k + 3 + 4 from by ring,
              list_getD_cons4, list_getD_cons4, list_getD_cons4, list_getD_cons4]

/-- `getD` two positions past a pair of cons cells. -/
theorem list_getD_cons2 {α : Type} (a b : α) (l : List α) (n : Nat) (x : α) :
    (a :: b :: l).getD (n + 2) x = l.getD n x := rfl

/-- Byte `k` of the packed action results carries actionpoints `2k` and
`2k+1`, independently of the running `ActiveAPs` accumulator. -/
theorem LC_PackAPLoop_getD :
    ∀ (k : Nat) (art : List LC_ARTEntry_t) (active : Nat), 2 * k + 1 < art.length →
      ((LC_PackAPLoop art active).1).getD k 0 =
        LC_PackAPByte (art.getD (2 * k) default) (art.getD (2 * k + 1) default) := by
  intro k
  induction k with
  | zero =>
    intro art active h
    match art with
    | [] => simp at h
    | [a0] => simp only [List.length_cons, List.length_nil] at h; omega
    | a0 :: a1 :: rest => rfl
  | succ k ih =>
    intro art active h
    match art with
    | [] => simp at h
    | [a0] => simp only [List.length_cons, List.length_nil] at h; omega
    | a0 :: a1 :: rest =>
      have h2 : 2 * k + 1 < rest.length := by
        simp only [List.length_cons] at h
        omega
      have step :
          ((LC_PackAPLoop (a0 :: a1 :: rest) active).1).getD (k + 1) 0 =
            ((LC_PackAPLoop rest
              (if a0.CurrentState = LC_APSTATE_ACTIVE then
                inc8 (if a1.CurrentState = LC_APSTATE_ACTIVE then inc8 active else active)
              else
                (if a1.CurrentState = LC_APSTATE_ACTIVE then inc8 active else active))).1).getD
              k 0 := rfl
      rw [step, ih rest _ h2,
        show 2 * (k + 1) = 2 * k + 2 from by ring,
        show 2 * k + 2 + 1 = 2 * k + 1 + 2 from by ring,
        list_getD_cons2, list_getD_cons2]

/-- The `ActiveAPs` accumulator of the packing loop counts the entries in
state `ACTIVE`, as long as the 8-bit counter cannot wrap. -/
theorem LC_PackAPLoop_active :
    ∀ (art : List LC_ARTEntry_t), art.length % 2 = 0 →
      ∀ active : Nat,
        active + art.countP (fun e => e.CurrentState == LC_APSTATE_ACTIVE) ≤ 255 →
        (LC_PackAPLoop art active).2 =
          active + art.countP (fun e => e.CurrentState == LC_APSTATE_ACTIVE) := by
  intro art
  induction art using list_pair_ind with
  | h0 => intro _ active _; simp [LC_PackAPLoop]
  | h1 a => intro h; simp at h
  | h2 a b l ihP =>
    intro heven active hbound
    have hl : l.length % 2 = 0 := by
      simp only [List.length_cons] at heven
      omega
    have hcount : ∀ e : LC_ARTEntry_t, ∀ t : List LC_ARTEntry_t,
        (e :: t).countP (fun x => x.CurrentState == LC_APSTATE_ACTIVE) =
          t.countP (fun x => x.CurrentState == LC_APSTATE_ACTIVE) +
            (if e.CurrentState = LC_APSTATE_ACTIVE then 1 else 0) := by
      intro e t
      by_cases he : e.CurrentState = LC_APSTATE_ACTIVE <;>
        simp [List.countP_cons, he]
    rw [hcount, hcount] at hbound ⊢
    by_cases hb : b.CurrentState = LC_APSTATE_ACTIVE <;>
      by_cases ha : a.CurrentState = LC_APSTATE_ACTIVE
    · have step : (LC_PackAPLoop (a :: b :: l) active).2 =
          (LC_PackAPLoop l (inc8 (inc8 active))).2 := by
        simp only [LC_PackAPLoop, ha, hb, if_pos]
      have h1 : inc8 active = active + 1 := by
        simp [hb, ha] at hbound
        unfold inc8
        omega
      have h2 : inc8 (active + 1) = active + 2 := by
        simp [hb, ha] at hbound
        unfold inc8
        omega
      rw [step, h1, h2, ihP hl (active + 2) (by simp [ha, hb] at hbound ⊢; omega)]
      simp [ha, hb]
      omega
    · have step : (LC_PackAPLoop (a :: b :: l) active).2 =
          (LC_PackAPLoop l (inc8 active)).2 := by
        simp only [LC_PackAPLoop, ha, hb, if_pos, if_neg, not_false_iff]
      have h1 : inc8 active = active + 1 := by
        simp [hb, ha] at hbound
        unfold inc8
        omega
      rw [step, h1, ihP hl (active + 1) (by simp [ha, hb] at hbound ⊢; omega)]
      simp [ha, hb]
      omega
    · have step : (LC_PackAPLoop (a :: b :: l) active).2 =
          (LC_PackAPLoop l (inc8 active)).2 := by
        simp only [LC_PackAPLoop, ha, hb, if_pos, if_neg, not_false_iff]
      have h1 : inc8 active = active + 1 := by
        simp [hb, ha] at hbound
        unfold inc8
        omega
      rw [step, h1, ihP hl (active + 1) (by simp [ha, hb] at hbound ⊢; omega)]
      simp [ha, hb]
      omega
    · have step : (LC_PackAPLoop (a :: b :: l) active).2 =
          (LC_PackAPLoop l active).2 := by
        simp only [LC_PackAPLoop, ha, hb, if_neg, not_false_iff]
      rw [step, ihP hl active (by simp [ha, hb] at hbound ⊢; omega)]
      simp [ha, hb]

/-- The staleness invariant of one WRT entry: a zero countdown exactly when
the result is `STALE` or `ERROR`. -/
def LC_StaleInv (e : LC_WRTEntry_t) : Prop :=
  e.CountdownToStale = 0 ↔
    (e.WatchResult = LC_WATCH_STALE ∨ e.WatchResult = LC_WATCH_ERROR)

instance (e : LC_WRTEntry_t) : Decidable (LC_StaleInv e) :=
  inferInstanceAs (Decidable (e.CountdownToStale = 0 ↔
    (e.WatchResult = LC_WATCH_STALE ∨ e.WatchResult = LC_WATCH_ERROR)))

/-- One step of the age walk preserves the staleness invariant. -/
theorem LC_AgeWRTEntry_inv (e : LC_WRTEntry_t) (h : LC_StaleInv e) :
    LC_StaleInv (LC_AgeWRTEntry e) := by
  unfold LC_StaleInv at h ⊢
  unfold LC_AgeWRTEntry
  by_cases h0 : e.CountdownToStale = 0
  · rw [if_neg (not_not_intro h0)]
    exact h
  · by_cases h1 : e.CountdownToStale - 1 = 0
    · rw [if_pos h0, if_pos h1]
      simp [h1, LC_WATCH_STALE, LC_WATCH_ERROR]
    · rw [if_pos h0, if_neg h1]
      simp only []
      exact iff_of_false h1 (fun hr => h0 (h.mpr hr))

/-- Pointwise reading of the age walk. -/
theorem LC_UpdateWRTAges_getD (wrt : List LC_WRTEntry_t) (i : Nat) (h : i < wrt.length) :
    (LC_UpdateWRTAges wrt).getD i default = LC_AgeWRTEntry (wrt.getD i default) :=
  list_getD_map LC_AgeWRTEntry default default wrt i h

/-- Pointwise reading of the `LC_ResetResultsAP` loop, at any starting
offset of the running index. -/
theorem LC_ResetResultsAPFrom_getD (adt : List Nat) (S E : Nat) (rs : Bool)
    (d : LC_ARTEntry_t) :
    ∀ (l : List LC_ARTEntry_t) (i0 i : Nat), i < l.length →
      (LC_ResetResultsAPFrom adt S E rs i0 l).getD i d =
        (if S ≤ i0 + i ∧ i0 + i ≤ E then
          LC_ResetAPEntry rs (adt.getD (i0 + i) 0) (l.getD i d)
        else l.getD i d) := by
  intro l
  induction l with
  | nil => intro i0 i h; simp at h
  | cons e rest ih =>
    intro i0 i h
    cases i with
    | zero => simp [LC_ResetResultsAPFrom]
    | succ j =>
      have hj : j < rest.length := by simpa using h
      simp only [LC_ResetResultsAPFrom, List.getD_cons_succ]
      rw [ih (i0 + 1) j hj, show i0 + 1 + j = i0 + (j + 1) from by ring]

/-- The `LC_ResetResultsAP` loop keeps the table length. -/
theorem LC_ResetResultsAPFrom_length (adt : List Nat) (S E : Nat) (rs : Bool) :
    ∀ (l : List LC_ARTEntry_t) (i0 : Nat),
      (LC_ResetResultsAPFrom adt S E rs i0 l).length = l.length := by
  intro l
  induction l with
  | nil => intro i0; rfl
  | cons e rest ih =>
    intro i0
    simp only [LC_ResetResultsAPFrom, List.length_cons, ih]

/-- Pointwise reading of the `LC_ResetResultsWP` loop, at any starting
offset of the running index. -/
theorem LC_ResetResultsWPFrom_getD (S E : Nat) (rs : Bool) (d : LC_WRTEntry_t) :
    ∀ (l : List LC_WRTEntry_t) (i0 i : Nat), i < l.length →
      (LC_ResetResultsWPFrom S E rs i0 l).getD i d =
        (if S ≤ i0 + i ∧ i0 + i ≤ E then LC_ResetWPEntry rs (l.getD i d)
        else l.getD i d) := by
  intro l
  induction l with
  | nil => intro i0 i h; simp at h
  | cons e rest ih =>
    intro i0 i h
    cases i with
    | zero => simp [LC_ResetResultsWPFrom]
    | succ j =>
      have hj : j < rest.length := by simpa using h
      simp only [LC_ResetResultsWPFrom, List.getD_cons_succ]
      rw [ih (i0 + 1) j hj, show i0 + 1 + j = i0 + (j + 1) from by ring]

/-- The `LC_ResetResultsWP` loop keeps the table length. -/
theorem LC_ResetResultsWPFrom_length (S E : Nat) (rs : Bool) :
    ∀ (l : List LC_WRTEntry_t) (i0 : Nat),
      (LC_ResetResultsWPFrom S E rs i0 l).length = l.length := by
  intro l
  induction l with
  | nil => intro i0; rfl
  | cons e rest ih =>
    intro i0
    simp only [LC_ResetResultsWPFrom, List.length_cons, ih]

/-! ## Concrete states used by witnesses and counterexamples -/

/-- A WRT entry with a given result and countdown (all counters zero). -/
def mkWRTEntry (r c : Nat) : LC_WRTEntry_t :=
  { WatchResult := r
    CountdownToStale := c
    EvaluationCount := 0
    FalseToTrueCount := 0
    ConsecutiveTrueCount := 0
    CumulativeTrueCount := 0
    LastFalseToTrue := default
    LastTrueToFalse := default }

/-- An ART entry with a given current state (stale result, counters zero). -/
def mkARTEntry (st : Nat) : LC_ARTEntry_t :=
  { ActionResult := LC_ACTION_STALE
    CurrentState := st
    PassiveAPCount := 0
    FailToPassCount := 0
    PassToFailCount := 0
    ConsecutiveFailCount := 0
    CumulativeFailCount := 0
    CumulativeRTSExecCount := 0
    CumulativeEventMsgsSent := 0 }

/-- Application data with a given run state and nonzero command counters. -/
def mkAppData (lc : Nat) : LC_AppData_t :=
  { CmdCount := 3
    CmdErrCount := 5
    CurrentLCState := lc
    APSampleCount := 7
    MonitoredMsgCount := 11
    RTSExecCount := 13
    PassiveRTSExecCount := 17 }

/-! ## Claims -/

/-- C6.  A valid-length RESET command zeroes exactly the six scalar counters
`CmdCount`, `CmdErrCount`, `APSampleCount`, `MonitoredMsgCount`,
`RTSExecCount` and `PassiveRTSExecCount` — in particular `CmdCount` itself
is reset to 0 rather than incremented — and changes nothing else (the run
state and both results tables are untouched). -/
theorem LC_C6_reset_zeroes_exactly_six_counters (s : LCState) :
    LC_ResetCmd true s =
      { s with AppData := { s.AppData with
          CmdCount := 0
          CmdErrCount := 0
          APSampleCount := 0
          MonitoredMsgCount := 0
          RTSExecCount := 0
          PassiveRTSExecCount := 0 } } := rfl

/-- C9.  A message on `LC_CMD_MID` whose function code is outside
`{NOOP=0, RESET=1, SET_LC_STATE=2, SET_AP_STATE=3, SET_AP_PERMOFF=4,
RESET_AP_STATS=5, RESET_WP_STATS=6}` only increments `CmdErrCount` (by one,
mod 256); no other application, watchpoint or actionpoint state changes,
and the pipe returns `CFE_SUCCESS`. -/
theorem LC_C9_unknown_function_code (adt : List Nat) (m : LC_CmdMsg) (s : LCState)
    (h0 : m.FcnCode ≠ LC_NOOP_CC) (h1 : m.FcnCode ≠ LC_RESET_CC)
    (h2 : m.FcnCode ≠ LC_SET_LC_STATE_CC) (h3 : m.FcnCode ≠ LC_SET_AP_STATE_CC)
    (h4 : m.FcnCode ≠ LC_SET_AP_PERMOFF_CC) (h5 : m.FcnCode ≠ LC_RESET_AP_STATS_CC)
    (h6 : m.FcnCode ≠ LC_RESET_WP_STATS_CC) :
    LC_AppPipeCmd adt m s =
      ({ s with AppData := { s.AppData with CmdErrCount := inc8 s.AppData.CmdErrCount } },
        CFE_SUCCESS) := by
  unfold LC_AppPipeCmd
  rw [if_neg h0, if_neg h1, if_neg h2, if_neg h3, if_neg h4, if_neg h5, if_neg h6]

/-- The command message used by the C9 witness: function code 99. -/
def c9Msg : LC_CmdMsg :=
  { FcnCode := 99
    ValidLength := true
    NewLCState := 0
    APNumber := 0
    NewAPState := 0
    WPNumber := 0 }

/-- The state used by the C9 witness. -/
def c9St : LCState :=
  { AppData := mkAppData LC_STATE_ACTIVE
    WRT := [mkWRTEntry LC_WATCH_TRUE 2]
    ART := [mkARTEntry LC_APSTATE_ACTIVE, mkARTEntry LC_APSTATE_DISABLED] }

/-- Witness for C9 at function code 99. -/
theorem LC_C9_unknown_function_code_witness :
    LC_AppPipeCmd [] c9Msg c9St =
      ({ c9St with AppData := { c9St.AppData with
          CmdErrCount := inc8 c9St.AppData.CmdErrCount } }, CFE_SUCCESS) :=
  LC_C9_unknown_function_code [] c9Msg c9St (by decide) (by decide) (by decide)
    (by decide) (by decide) (by decide) (by decide)

/-- C10.  A sample command that is rejected — invalid length, application
state `DISABLED`, or an out-of-range index pair — leaves the state exactly
as it was: `CmdErrCount` is not incremented, no WRT or ART entry changes,
and in particular the `UpdateAge` walk is skipped. -/
theorem LC_C10_rejected_sample_is_noop (sampleAPs : Nat → Nat → LCState → LCState)
    (validLen : Bool) (cmd : LC_SampleAP_t) (s : LCState) :
    (LC_SampleAPReq sampleAPs false cmd s = (s, none))
  ∧ (s.AppData.CurrentLCState = LC_STATE_DISABLED →
      LC_SampleAPReq sampleAPs validLen cmd s = (s, none))
  ∧ (¬(cmd.StartIndex = LC_ALL_ACTIONPOINTS ∧ cmd.EndIndex = LC_ALL_ACTIONPOINTS) →
      ¬(cmd.StartIndex ≤ cmd.EndIndex ∧ cmd.EndIndex < s.ART.length) →
      LC_SampleAPReq sampleAPs validLen cmd s = (s, none)) := by
  refine ⟨rfl, ?_, ?_⟩
  · intro hd
    cases validLen with
    | false => rfl
    | true =>
      unfold LC_SampleAPReq
      rw [if_pos rfl, if_neg (not_not_intro hd)]
  · intro hnall hnrange
    cases validLen with
    | false => rfl
    | true =>
      unfold LC_SampleAPReq
      rw [if_pos rfl]
      by_cases hd : s.AppData.CurrentLCState = LC_STATE_DISABLED
      · rw [if_neg (not_not_intro hd)]
      · rw [if_pos hd, if_neg hnall, if_neg hnrange]
        simp

/-- The state used by the C10 witness. -/
def c10St : LCState :=
  { AppData := mkAppData LC_STATE_ACTIVE
    WRT := [mkWRTEntry LC_WATCH_TRUE 2]
    ART := [mkARTEntry LC_APSTATE_ACTIVE, mkARTEntry LC_APSTATE_PASSIVE] }

/-- Witness for C10: start index 5 past end index 1 of a 2-entry table. -/
theorem LC_C10_rejected_sample_is_noop_witness :
    LC_SampleAPReq (fun _ _ st => st) true ⟨5, 1, 1⟩ c10St = (c10St, none) :=
  (LC_C10_rejected_sample_is_noop (fun _ _ st => st) true ⟨5, 1, 1⟩ c10St).2.2
    (by decide) (by decide)

/-- A reachable WRT entry refuting C4 as stated: a watchpoint whose
`ResultAgeWhenStale` is 0 (never staleable) holds result `TRUE` with
countdown 0. -/
def c4Entry : LC_WRTEntry_t := mkWRTEntry LC_WATCH_TRUE 0

/-- Counterexample to C4 as stated: the staleness walk of the sample
command leaves the entry `⟨TRUE, countdown 0⟩` untouched, and that entry
violates `CountdownToStale = 0 ↔ WatchResult ∈ {STALE, ERROR}` — the walk
does not establish the invariant on an arbitrary table. -/
theorem LC_C4_counterexample :
    LC_UpdateWRTAges [c4Entry] = [c4Entry] ∧ ¬ LC_StaleInv c4Entry := by
  constructor
  · decide
  · decide

/-- C4 (amended).  The sample command preserves the staleness invariant: if
every WRT entry satisfies `CountdownToStale = 0 ↔ WatchResult ∈ {STALE,
ERROR}` before the command, every entry still does afterwards, for any
actionpoint sampler that does not touch the WRT (per the spec,
`LC_SampleAPs` only updates ART entries and application counters). -/
theorem LC_C4_stale_invariant_preserved (sampleAPs : Nat → Nat → LCState → LCState)
    (hw : ∀ a b st, (sampleAPs a b st).WRT = st.WRT)
    (validLen : Bool) (cmd : LC_SampleAP_t) (s : LCState)
    (hinv : ∀ e ∈ s.WRT, LC_StaleInv e) :
    ∀ e ∈ (LC_SampleAPReq sampleAPs validLen cmd s).1.WRT, LC_StaleInv e := by
  have hcases : (LC_SampleAPReq sampleAPs validLen cmd s).1.WRT = s.WRT ∨
      (LC_SampleAPReq sampleAPs validLen cmd s).1.WRT = LC_UpdateWRTAges s.WRT := by
    cases validLen with
    | false => exact Or.inl rfl
    | true =>
      unfold LC_SampleAPReq
      rw [if_pos rfl]
      by_cases hd : s.AppData.CurrentLCState = LC_STATE_DISABLED
      · rw [if_neg (not_not_intro hd)]
        exact Or.inl rfl
      · rw [if_pos hd]
        by_cases hall : cmd.StartIndex = LC_ALL_ACTIONPOINTS ∧
            cmd.EndIndex = LC_ALL_ACTIONPOINTS
        · rw [if_pos hall]
          by_cases hup : cmd.UpdateAge ≠ 0 ∧
              (Option.isSome (some (0, s.ART.length - 1)) : Prop)
          · rw [if_pos hup]
            exact Or.inr (by rw [hw])
          · rw [if_neg hup]
            exact Or.inl (hw 0 (s.ART.length - 1) s)
        · rw [if_neg hall]
          by_cases hrange : cmd.StartIndex ≤ cmd.EndIndex ∧ cmd.EndIndex < s.ART.length
          · rw [if_pos hrange]
            by_cases hup : cmd.UpdateAge ≠ 0 ∧
                (Option.isSome (some (cmd.StartIndex, cmd.EndIndex)) : Prop)
            · rw [if_pos hup]
              exact Or.inr (by rw [hw])
            · rw [if_neg hup]
              exact Or.inl (hw cmd.StartIndex cmd.EndIndex s)
          · rw [if_neg hrange]
            by_cases hup : cmd.UpdateAge ≠ 0 ∧ (Option.isSome (none : Option (Nat × Nat)) : Prop)
            · exact absurd hup (by simp)
            · rw [if_neg hup]
              exact Or.inl rfl
  intro e he
  rcases hcases with hc | hc
  · rw [hc] at he
    exact hinv e he
  · rw [hc] at he
    unfold LC_UpdateWRTAges at he
    rcases List.mem_map.mp he with ⟨x, hx, rfl⟩
    exact LC_AgeWRTEntry_inv x (hinv x hx)

/-- The state used by the C4 witness: one `TRUE` entry with countdown 3. -/
def c4WSt : LCState :=
  { AppData := mkAppData LC_STATE_ACTIVE
    WRT := [mkWRTEntry LC_WATCH_TRUE 3]
    ART := [mkARTEntry LC_APSTATE_ACTIVE] }

/-- Witness for the amended C4: after a sample-all command with
`UpdateAge = 1`, the aged entry `⟨TRUE, countdown 2⟩` still satisfies the
invariant. -/
theorem LC_C4_stale_invariant_preserved_witness :
    LC_StaleInv ((LC_SampleAPReq (fun _ _ st => st) true
      ⟨LC_ALL_ACTIONPOINTS, LC_ALL_ACTIONPOINTS, 1⟩ c4WSt).1.WRT.getD 0 default) :=
  LC_C4_stale_invariant_preserved (fun _ _ st => st) (fun _ _ _ => rfl) true
    ⟨LC_ALL_ACTIONPOINTS, LC_ALL_ACTIONPOINTS, 1⟩ c4WSt (by decide) _ (by decide)

/-- The state used by the C5 counterexample: application state `DISABLED`,
one watchpoint with countdown 5. -/
def c5St : LCState :=
  { AppData := mkAppData LC_STATE_DISABLED
    WRT := [mkWRTEntry LC_WATCH_TRUE 5]
    ART := [mkARTEntry LC_APSTATE_ACTIVE] }

/-- Counterexample to C5 as stated: with `CurrentLCState = DISABLED`, a
valid-length `(ALL, ALL, UpdateAge=1)` sample command samples nothing and
skips the age walk (the countdown stays 5), although the claim promises the
range `[0, N-1]` is sampled and countdowns are decremented. -/
theorem LC_C5_counterexample :
    LC_SampleAPReq (fun _ _ st => st) true
        ⟨LC_ALL_ACTIONPOINTS, LC_ALL_ACTIONPOINTS, 1⟩ c5St = (c5St, none) ∧
      ((LC_SampleAPReq (fun _ _ st => st) true
        ⟨LC_ALL_ACTIONPOINTS, LC_ALL_ACTIONPOINTS, 1⟩ c5St).1.WRT.getD 0
          default).CountdownToStale = 5 := by
  constructor
  · decide
  · decide

/-- C5 (amended).  For a valid-length sample command when the application
is not `DISABLED`: the pair `(ALL, ALL)` selects the range `[0, N-1]`;
otherwise the command executes exactly when `Start ≤ End < N`, and is
dropped with no state change otherwise; when `UpdateAge` is non-zero and
the range is valid, every WRT entry is aged: a non-zero countdown is
decremented and the result turns `STALE` when it reaches zero, while
entries with countdown 0 are unchanged.  (`sampleAPs` is `LC_SampleAPs`
from `lc_action.c`, outside this snapshot; per the spec it does not touch
the WRT.) -/
theorem LC_C5_sample_range (sampleAPs : Nat → Nat → LCState → LCState)
    (hw : ∀ a b st, (sampleAPs a b st).WRT = st.WRT)
    (cmd : LC_SampleAP_t) (s : LCState)
    (hd : s.AppData.CurrentLCState ≠ LC_STATE_DISABLED) :
    ((cmd.StartIndex = LC_ALL_ACTIONPOINTS ∧ cmd.EndIndex = LC_ALL_ACTIONPOINTS) →
      (LC_SampleAPReq sampleAPs true cmd s).2 = some (0, s.ART.length - 1))
  ∧ (¬(cmd.StartIndex = LC_ALL_ACTIONPOINTS ∧ cmd.EndIndex = LC_ALL_ACTIONPOINTS) →
      (((LC_SampleAPReq sampleAPs true cmd s).2 = some (cmd.StartIndex, cmd.EndIndex)) ↔
          (cmd.StartIndex ≤ cmd.EndIndex ∧ cmd.EndIndex < s.ART.length))
      ∧ (¬(cmd.StartIndex ≤ cmd.EndIndex ∧ cmd.EndIndex < s.ART.length) →
          LC_SampleAPReq sampleAPs true cmd s = (s, none)))
  ∧ (cmd.UpdateAge ≠ 0 → (LC_SampleAPReq sampleAPs true cmd s).2.isSome →
      ∀ i, i < s.WRT.length →
        (LC_SampleAPReq sampleAPs true cmd s).1.WRT.getD i default =
          LC_AgeWRTEntry (s.WRT.getD i default))
  ∧ (∀ e : LC_WRTEntry_t,
      (e.CountdownToStale = 0 → LC_AgeWRTEntry e = e)
      ∧ (e.CountdownToStale ≠ 0 →
          (LC_AgeWRTEntry e).CountdownToStale = e.CountdownToStale - 1
          ∧ (e.CountdownToStale - 1 = 0 →
              (LC_AgeWRTEntry e).WatchResult = LC_WATCH_STALE)
          ∧ (e.CountdownToStale - 1 ≠ 0 →
              (LC_AgeWRTEntry e).WatchResult = e.WatchResult))) := by
  refine ⟨?_, ?_, ?_, ?_⟩
  · intro hall
    unfold LC_SampleAPReq
    rw [if_pos rfl, if_pos hd, if_pos hall]
    by_cases hup : cmd.UpdateAge ≠ 0 ∧
        (Option.isSome (some (0, s.ART.length - 1)) = true)
    · rw [if_pos hup]
    · rw [if_neg hup]
  · intro hnall
    refine ⟨⟨?_, ?_⟩, ?_⟩
    · intro hsome
      by_cases hrange : cmd.StartIndex ≤ cmd.EndIndex ∧ cmd.EndIndex < s.ART.length
      · exact hrange
      · exfalso
        unfold LC_SampleAPReq at hsome
        rw [if_pos rfl, if_pos hd, if_neg hnall, if_neg hrange] at hsome
        simp at hsome
    · intro hrange
      unfold LC_SampleAPReq
      rw [if_pos rfl, if_pos hd, if_neg hnall, if_pos hrange]
      by_cases hup : cmd.UpdateAge ≠ 0 ∧
          (Option.isSome (some (cmd.StartIndex, cmd.EndIndex)) = true)
      · rw [if_pos hup]
      · rw [if_neg hup]
    · intro hnrange
      unfold LC_SampleAPReq
      rw [if_pos rfl, if_pos hd, if_neg hnall, if_neg hnrange]
      simp
  · intro hUA hsome i hi
    by_cases hall : cmd.StartIndex = LC_ALL_ACTIONPOINTS ∧
        cmd.EndIndex = LC_ALL_ACTIONPOINTS
    · have heq : LC_SampleAPReq sampleAPs true cmd s =
          ({ sampleAPs 0 (s.ART.length - 1) s with
              WRT := LC_UpdateWRTAges (sampleAPs 0 (s.ART.length - 1) s).WRT },
            some (0, s.ART.length - 1)) := by
        unfold LC_SampleAPReq
        rw [if_pos rfl, if_pos hd, if_pos hall, if_pos ⟨hUA, rfl⟩]
      have hwrt : (LC_SampleAPReq sampleAPs true cmd s).1.WRT =
          LC_UpdateWRTAges s.WRT := by
        rw [heq]
        show LC_UpdateWRTAges (sampleAPs 0 (s.ART.length - 1) s).WRT =
          LC_UpdateWRTAges s.WRT
        rw [hw]
      rw [hwrt]
      exact LC_UpdateWRTAges_getD s.WRT i hi
    · by_cases hrange : cmd.StartIndex ≤ cmd.EndIndex ∧ cmd.EndIndex < s.ART.length
      · have heq : LC_SampleAPReq sampleAPs true cmd s =
            ({ sampleAPs cmd.StartIndex cmd.EndIndex s with
                WRT := LC_UpdateWRTAges (sampleAPs cmd.StartIndex cmd.EndIndex s).WRT },
              some (cmd.StartIndex, cmd.EndIndex)) := by
          unfold LC_SampleAPReq
          rw [if_pos rfl, if_pos hd, if_neg hall, if_pos hrange, if_pos ⟨hUA, rfl⟩]
        have hwrt : (LC_SampleAPReq sampleAPs true cmd s).1.WRT =
            LC_UpdateWRTAges s.WRT := by
          rw [heq]
          show LC_UpdateWRTAges (sampleAPs cmd.StartIndex cmd.EndIndex s).WRT =
            LC_UpdateWRTAges s.WRT
          rw [hw]
        rw [hwrt]
        exact LC_UpdateWRTAges_getD s.WRT i hi
      · exfalso
        have heq : LC_SampleAPReq sampleAPs true cmd s = (s, none) := by
          unfold LC_SampleAPReq
          rw [if_pos rfl, if_pos hd, if_neg hall, if_neg hrange]
          simp
        rw [heq] at hsome
        simp at hsome
  · intro e
    refine ⟨?_, ?_⟩
    · intro h0
      unfold LC_AgeWRTEntry
      rw [if_neg (not_not_intro h0)]
    · intro h0
      unfold LC_AgeWRTEntry
      rw [if_pos h0]
      by_cases h1 : e.CountdownToStale - 1 = 0
      · rw [if_pos h1]
        exact ⟨rfl, fun _ => rfl, fun hne => absurd h1 hne⟩
      · rw [if_neg h1]
        exact ⟨rfl, fun heq => absurd heq h1, fun _ => rfl⟩

/-- The state used by the C5 witness. -/
def c5WSt : LCState :=
  { AppData := mkAppData LC_STATE_ACTIVE
    WRT := [mkWRTEntry LC_WATCH_TRUE 2]
    ART := [mkARTEntry LC_APSTATE_ACTIVE] }

/-- Witness for the amended C5: the single-AP range `(0, 0)` with
`UpdateAge = 1` ages entry 0. -/
theorem LC_C5_sample_range_witness :
    (LC_SampleAPReq (fun _ _ st => st) true ⟨0, 0, 1⟩ c5WSt).1.WRT.getD 0 default =
      LC_AgeWRTEntry (c5WSt.WRT.getD 0 default) :=
  (LC_C5_sample_range (fun _ _ st => st) (fun _ _ _ => rfl) ⟨0, 0, 1⟩ c5WSt
    (by decide)).2.2.1 (by decide) (by decide) 0 (by decide)

/-- C2.  A SET_AP_PERMOFF command naming `ALL_ACTIONPOINTS`, an index out
of range, or an actionpoint not currently `DISABLED` is rejected: only
`CmdErrCount` is incremented and nothing else changes.  On a `DISABLED`
actionpoint with a valid index, it sets `CurrentState = PERMOFF` and
increments `CmdCount`; a subsequent SET_AP_STATE on that index is rejected
with `CmdErrCount` incremented (and no state change), so the state remains
`PERMOFF`. -/
theorem LC_C2_permoff_protection (s : LCState) (ap : Nat)
    (hlen : s.ART.length ≤ LC_ALL_ACTIONPOINTS) :
    ((ap = LC_ALL_ACTIONPOINTS ∨ ap ≥ s.ART.length ∨
        (s.ART.getD ap default).CurrentState ≠ LC_APSTATE_DISABLED) →
      LC_SetAPPermOffCmd true ap s =
        { s with AppData := { s.AppData with
            CmdErrCount := inc8 s.AppData.CmdErrCount } })
  ∧ (ap < s.ART.length →
      (s.ART.getD ap default).CurrentState = LC_APSTATE_DISABLED →
      (LC_SetAPPermOffCmd true ap s).ART =
          s.ART.set ap { s.ART.getD ap default with CurrentState := LC_APSTATE_PERMOFF }
      ∧ ((LC_SetAPPermOffCmd true ap s).ART.getD ap default).CurrentState =
          LC_APSTATE_PERMOFF
      ∧ (LC_SetAPPermOffCmd true ap s).AppData =
          { s.AppData with CmdCount := inc8 s.AppData.CmdCount }
      ∧ ∀ newState : Nat,
          LC_SetAPStateCmd true ap newState (LC_SetAPPermOffCmd true ap s) =
            { LC_SetAPPermOffCmd true ap s with
              AppData := { (LC_SetAPPermOffCmd true ap s).AppData with
                CmdErrCount := inc8 (LC_SetAPPermOffCmd true ap s).AppData.CmdErrCount } }) := by
  have hallval : LC_ALL_ACTIONPOINTS = 65535 := rfl
  constructor
  · intro hrej
    unfold LC_SetAPPermOffCmd
    rw [if_pos rfl]
    by_cases h1 : ap = LC_ALL_ACTIONPOINTS ∨ ap ≥ s.ART.length
    · rw [if_pos h1]
    · rw [if_neg h1]
      have hst : (s.ART.getD ap default).CurrentState ≠ LC_APSTATE_DISABLED := by
        rcases hrej with h | h | h
        · exact absurd (Or.inl h) h1
        · exact absurd (Or.inr h) h1
        · exact h
      rw [if_pos hst]
  · intro hlt hst
    have hnall : ap ≠ LC_ALL_ACTIONPOINTS := by
      rw [hallval] at hlen ⊢
      omega
    have hne : ¬(ap = LC_ALL_ACTIONPOINTS ∨ ap ≥ s.ART.length) := by
      rintro (h | h)
      · exact hnall h
      · exact absurd hlt (not_lt.mpr h)
    have heq : LC_SetAPPermOffCmd true ap s =
        { s with
          ART := s.ART.set ap
            { s.ART.getD ap default with CurrentState := LC_APSTATE_PERMOFF }
          AppData := { s.AppData with CmdCount := inc8 s.AppData.CmdCount } } := by
      unfold LC_SetAPPermOffCmd
      rw [if_pos rfl, if_neg hne, if_neg (not_not_intro hst)]
    refine ⟨by rw [heq], ?_, by rw [heq], ?_⟩
    · rw [heq]
      show ((s.ART.set ap
        { s.ART.getD ap default with
          CurrentState := LC_APSTATE_PERMOFF }).getD ap default).CurrentState =
        LC_APSTATE_PERMOFF
      rw [list_getD_set_self default _ s.ART ap hlt]
    · intro newState
      rw [heq]
      have hgd : ((s.ART.set ap
          { s.ART.getD ap default with
            CurrentState := LC_APSTATE_PERMOFF }).getD ap default) =
          { s.ART.getD ap default with CurrentState := LC_APSTATE_PERMOFF } :=
        list_getD_set_self default _ s.ART ap hlt
      unfold LC_SetAPStateCmd
      rw [if_pos rfl]
      by_cases hv : newState = LC_APSTATE_ACTIVE ∨ newState = LC_APSTATE_PASSIVE ∨
          newState = LC_APSTATE_DISABLED
      · rw [if_pos hv, if_neg hnall,
          if_pos (show ap < (s.ART.set ap
            { s.ART.getD ap default with
              CurrentState := LC_APSTATE_PERMOFF }).length from by
            rw [List.length_set]
            exact hlt),
          if_neg (show ¬(((s.ART.set ap
            { s.ART.getD ap default with
              CurrentState := LC_APSTATE_PERMOFF }).getD ap default).CurrentState ≠
                LC_APSTATE_ACTION_NOT_USED ∧
              ((s.ART.set ap
                { s.ART.getD ap default with
                  CurrentState := LC_APSTATE_PERMOFF }).getD ap default).CurrentState ≠
                LC_APSTATE_PERMOFF) from by
            rw [hgd]
            exact fun h => h.2 rfl)]
      · rw [if_neg hv]

/-- The state used by the C2 witness: AP 1 is `DISABLED`. -/
def c2St : LCState :=
  { AppData := mkAppData LC_STATE_ACTIVE
    WRT := []
    ART := [mkARTEntry LC_APSTATE_ACTIVE, mkARTEntry LC_APSTATE_DISABLED] }

/-- Witness for C2: turning AP 1 permanently off succeeds, and a subsequent
SET_AP_STATE on AP 1 only bumps `CmdErrCount`. -/
theorem LC_C2_permoff_protection_witness :
    ((LC_SetAPPermOffCmd true 1 c2St).ART.getD 1 default).CurrentState =
        LC_APSTATE_PERMOFF ∧
      LC_SetAPStateCmd true 1 LC_APSTATE_ACTIVE (LC_SetAPPermOffCmd true 1 c2St) =
        { LC_SetAPPermOffCmd true 1 c2St with
          AppData := { (LC_SetAPPermOffCmd true 1 c2St).AppData with
            CmdErrCount := inc8 (LC_SetAPPermOffCmd true 1 c2St).AppData.CmdErrCount } } := by
  have h := (LC_C2_permoff_protection c2St 1 (by decide)).2 (by decide) (by decide)
  exact ⟨h.2.1, h.2.2.2 LC_APSTATE_ACTIVE⟩

/-- The state used by the C3 counterexample and witness: AP 0 is `PERMOFF`. -/
def c3St : LCState :=
  { AppData := mkAppData LC_STATE_ACTIVE
    WRT := []
    ART := [mkARTEntry LC_APSTATE_PERMOFF, mkARTEntry LC_APSTATE_ACTIVE] }

/-- Counterexample to C3 as stated: a single-index SET_AP_STATE on a
`PERMOFF` actionpoint leaves the table alone but DOES increment
`CmdErrCount` (the claim says `CmdErrCount` is unchanged). -/
theorem LC_C3_counterexample :
    (LC_SetAPStateCmd true 0 LC_APSTATE_ACTIVE c3St).AppData.CmdErrCount ≠
        c3St.AppData.CmdErrCount ∧
      (LC_SetAPStateCmd true 0 LC_APSTATE_ACTIVE c3St).ART = c3St.ART := by
  constructor
  · decide
  · decide

/-- C3 (amended).  For a valid new state targeting an actionpoint whose
state is `NOT_USED` or `PERMOFF`: a single in-range index is rejected —
the table (hence the AP's state) is unchanged and `CmdErrCount` is
incremented by one; the `ALL_ACTIONPOINTS` target still increments
`CmdCount` by exactly one (and leaves `CmdErrCount` alone) regardless of
how many APs changed, and every AP in `NOT_USED` or `PERMOFF` keeps its
state. -/
theorem LC_C3_sticky_states (s : LCState) (ap newState : Nat)
    (hlen : s.ART.length ≤ LC_ALL_ACTIONPOINTS)
    (hvalid : newState = LC_APSTATE_ACTIVE ∨ newState = LC_APSTATE_PASSIVE ∨
      newState = LC_APSTATE_DISABLED) :
    (ap < s.ART.length →
      ((s.ART.getD ap default).CurrentState = LC_APSTATE_ACTION_NOT_USED ∨
        (s.ART.getD ap default).CurrentState = LC_APSTATE_PERMOFF) →
      LC_SetAPStateCmd true ap newState s =
        { s with AppData := { s.AppData with
            CmdErrCount := inc8 s.AppData.CmdErrCount } })
  ∧ ((LC_SetAPStateCmd true LC_ALL_ACTIONPOINTS newState s).AppData =
        { s.AppData with CmdCount := inc8 s.AppData.CmdCount }
    ∧ ∀ i, i < s.ART.length →
        ((s.ART.getD i default).CurrentState = LC_APSTATE_ACTION_NOT_USED ∨
          (s.ART.getD i default).CurrentState = LC_APSTATE_PERMOFF) →
        (LC_SetAPStateCmd true LC_ALL_ACTIONPOINTS newState s).ART.getD i default =
          s.ART.getD i default) := by
  have hallval : LC_ALL_ACTIONPOINTS = 65535 := rfl
  have hmapeq : (LC_SetAPStateCmd true LC_ALL_ACTIONPOINTS newState s).ART =
      s.ART.map (fun e =>
        if e.CurrentState ≠ LC_APSTATE_ACTION_NOT_USED ∧
            e.CurrentState ≠ LC_APSTATE_PERMOFF then
          { e with CurrentState := newState }
        else e) := by
    unfold LC_SetAPStateCmd
    rw [if_pos rfl, if_pos hvalid, if_pos rfl]
  refine ⟨?_, ?_, ?_⟩
  · intro hlt hsticky
    have hnall : ap ≠ LC_ALL_ACTIONPOINTS := by
      rw [hallval] at hlen ⊢
      omega
    have hc : ¬((s.ART.getD ap default).CurrentState ≠ LC_APSTATE_ACTION_NOT_USED ∧
        (s.ART.getD ap default).CurrentState ≠ LC_APSTATE_PERMOFF) := by
      rcases hsticky with h | h
      · exact fun hcon => hcon.1 h
      · exact fun hcon => hcon.2 h
    unfold LC_SetAPStateCmd
    rw [if_pos rfl, if_pos hvalid, if_neg hnall, if_pos hlt, if_neg hc]
  · unfold LC_SetAPStateCmd
    rw [if_pos rfl, if_pos hvalid, if_pos rfl]
  · intro i hi hsticky
    have hc : ¬((s.ART.getD i default).CurrentState ≠ LC_APSTATE_ACTION_NOT_USED ∧
        (s.ART.getD i default).CurrentState ≠ LC_APSTATE_PERMOFF) := by
      rcases hsticky with h | h
      · exact fun hcon => hcon.1 h
      · exact fun hcon => hcon.2 h
    rw [hmapeq, list_getD_map _ default default s.ART i hi, if_neg hc]

/-- Witness for the amended C3: the single-index rejection on `PERMOFF`
AP 0 bumps `CmdErrCount` and changes nothing else. -/
theorem LC_C3_sticky_states_witness :
    LC_SetAPStateCmd true 0 LC_APSTATE_ACTIVE c3St =
      { c3St with AppData := { c3St.AppData with
          CmdErrCount := inc8 c3St.AppData.CmdErrCount } } :=
  (LC_C3_sticky_states c3St 0 LC_APSTATE_ACTIVE (by decide) (by decide)).1
    (by decide) (by decide)

/-- The state used by the C7 counterexample and witness: watchpoint 0 has a
recorded false-to-true transition value of 7. -/
def c7St : LCState :=
  { AppData := mkAppData LC_STATE_ACTIVE
    WRT := [{ mkWRTEntry LC_WATCH_TRUE 3 with
      LastFalseToTrue := { Value := 7, DataType := 1, Timestamp := ⟨9, 9⟩ } }]
    ART := [] }

/-- Counterexample to C7 as stated: RESET_WP_STATS zeroes the
`LastFalseToTrue` transition record, which is not a counter — "only
counters are reset" fails at watchpoint 0 of `c7St`. -/
theorem LC_C7_counterexample :
    ((LC_ResetWPStatsCmd true 0 c7St).WRT.getD 0 default).LastFalseToTrue.Value = 0 ∧
      (c7St.WRT.getD 0 default).LastFalseToTrue.Value = 7 := by
  constructor
  · decide
  · decide

/-- C7 (amended).  RESET_AP_STATS / RESET_WP_STATS, with target `ALL` or a
single index `< N`, reset the counters — and, for watchpoints, the
`LastFalseToTrue` / `LastTrueToFalse` transition values and timestamps —
while `ActionResult` / `WatchResult`, `CurrentState` and
`CountdownToStale` are left unchanged; entries outside the commanded range
and the other results table do not change at all. -/
theorem LC_C7_stats_reset_scope (s : LCState) (adt : List Nat) (ap wp : Nat) :
    ((ap = LC_ALL_ACTIONPOINTS ∨ ap < s.ART.length) →
      (LC_ResetAPStatsCmd true ap adt s).WRT = s.WRT
      ∧ (LC_ResetAPStatsCmd true ap adt s).ART.length = s.ART.length
      ∧ (LC_ResetAPStatsCmd true ap adt s).AppData =
          { s.AppData with CmdCount := inc8 s.AppData.CmdCount }
      ∧ ∀ i, i < s.ART.length →
          (((ap = LC_ALL_ACTIONPOINTS ∨ i = ap) →
            (LC_ResetAPStatsCmd true ap adt s).ART.getD i default =
              { s.ART.getD i default with
                PassiveAPCount := 0
                FailToPassCount := 0
                PassToFailCount := 0
                ConsecutiveFailCount := 0
                CumulativeFailCount := 0
                CumulativeRTSExecCount := 0
                CumulativeEventMsgsSent := 0 })
          ∧ (¬(ap = LC_ALL_ACTIONPOINTS ∨ i = ap) →
            (LC_ResetAPStatsCmd true ap adt s).ART.getD i default =
              s.ART.getD i default)))
  ∧ ((wp = LC_ALL_WATCHPOINTS ∨ wp < s.WRT.length) →
      (LC_ResetWPStatsCmd true wp s).ART = s.ART
      ∧ (LC_ResetWPStatsCmd true wp s).WRT.length = s.WRT.length
      ∧ (LC_ResetWPStatsCmd true wp s).AppData =
          { s.AppData with CmdCount := inc8 s.AppData.CmdCount }
      ∧ ∀ i, i < s.WRT.length →
          (((wp = LC_ALL_WATCHPOINTS ∨ i = wp) →
            (LC_ResetWPStatsCmd true wp s).WRT.getD i default =
              { s.WRT.getD i default with
                EvaluationCount := 0
                FalseToTrueCount := 0
                ConsecutiveTrueCount := 0
                CumulativeTrueCount := 0
                LastFalseToTrue := { (s.WRT.getD i default).LastFalseToTrue with
                  Value := 0
                  Timestamp := { Seconds := 0, Subseconds := 0 } }
                LastTrueToFalse := { (s.WRT.getD i default).LastTrueToFalse with
                  Value := 0
                  Timestamp := { Seconds := 0, Subseconds := 0 } } })
          ∧ (¬(wp = LC_ALL_WATCHPOINTS ∨ i = wp) →
            (LC_ResetWPStatsCmd true wp s).WRT.getD i default =
              s.WRT.getD i default))) := by
  constructor
  · intro htarget
    by_cases hall : ap = LC_ALL_ACTIONPOINTS
    · have heq : LC_ResetAPStatsCmd true ap adt s =
          { s with
            ART := LC_ResetResultsAP adt 0 (s.ART.length - 1) true s.ART
            AppData := { s.AppData with CmdCount := inc8 s.AppData.CmdCount } } := by
        unfold LC_ResetAPStatsCmd
        rw [if_pos rfl, if_pos hall]
      refine ⟨by rw [heq], ?_, by rw [heq], ?_⟩
      · rw [heq]
        show (LC_ResetResultsAP adt 0 (s.ART.length - 1) true s.ART).length = s.ART.length
        unfold LC_ResetResultsAP
        exact LC_ResetResultsAPFrom_length adt 0 (s.ART.length - 1) true s.ART 0
      · intro i hi
        have hgd : (LC_ResetAPStatsCmd true ap adt s).ART.getD i default =
            LC_ResetAPEntry true (adt.getD i 0) (s.ART.getD i default) := by
          rw [heq]
          show (LC_ResetResultsAP adt 0 (s.ART.length - 1) true s.ART).getD i default = _
          unfold LC_ResetResultsAP
          rw [LC_ResetResultsAPFrom_getD adt 0 (s.ART.length - 1) true default s.ART 0 i hi,
            if_pos (show 0 ≤ 0 + i ∧ 0 + i ≤ s.ART.length - 1 from by omega),
            Nat.zero_add]
        exact ⟨fun _ => (by rw [hgd]; rfl), fun hcon => absurd (Or.inl hall) hcon⟩
    · have hlt : ap < s.ART.length := by
        rcases htarget with h | h
        · exact absurd h hall
        · exact h
      have heq : LC_ResetAPStatsCmd true ap adt s =
          { s with
            ART := LC_ResetResultsAP adt ap ap true s.ART
            AppData := { s.AppData with CmdCount := inc8 s.AppData.CmdCount } } := by
        unfold LC_ResetAPStatsCmd
        rw [if_pos rfl, if_neg hall, if_pos hlt]
      refine ⟨by rw [heq], ?_, by rw [heq], ?_⟩
      · rw [heq]
        show (LC_ResetResultsAP adt ap ap true s.ART).length = s.ART.length
        unfold LC_ResetResultsAP
        exact LC_ResetResultsAPFrom_length adt ap ap true s.ART 0
      · intro i hi
        constructor
        · intro hin
          have hieq : i = ap := by
            rcases hin with h | h
            · exact absurd h hall
            · exact h
          rw [heq]
          show (LC_ResetResultsAP adt ap ap true s.ART).getD i default = _
          unfold LC_ResetResultsAP
          rw [LC_ResetResultsAPFrom_getD adt ap ap true default s.ART 0 i hi,
            if_pos (show ap ≤ 0 + i ∧ 0 + i ≤ ap from by omega), Nat.zero_add]
          rfl
        · intro hnin
          have hine : i ≠ ap := fun h => hnin (Or.inr h)
          rw [heq]
          show (LC_ResetResultsAP adt ap ap true s.ART).getD i default = _
          unfold LC_ResetResultsAP
          rw [LC_ResetResultsAPFrom_getD adt ap ap true default s.ART 0 i hi,
            if_neg (show ¬(ap ≤ 0 + i ∧ 0 + i ≤ ap) from by omega)]
  · intro htarget
    by_cases hall : wp = LC_ALL_WATCHPOINTS
    · have heq : LC_ResetWPStatsCmd true wp s =
          { s with
            WRT := LC_ResetResultsWP 0 (s.WRT.length - 1) true s.WRT
            AppData := { s.AppData with CmdCount := inc8 s.AppData.CmdCount } } := by
        unfold LC_ResetWPStatsCmd
        rw [if_pos rfl, if_pos hall]
      refine ⟨by rw [heq], ?_, by rw [heq], ?_⟩
      · rw [heq]
        show (LC_ResetResultsWP 0 (s.WRT.length - 1) true s.WRT).length = s.WRT.length
        unfold LC_ResetResultsWP
        exact LC_ResetResultsWPFrom_length 0 (s.WRT.length - 1) true s.WRT 0
      · intro i hi
        have hgd : (LC_ResetWPStatsCmd true wp s).WRT.getD i default =
            LC_ResetWPEntry true (s.WRT.getD i default) := by
          rw [heq]
          show (LC_ResetResultsWP 0 (s.WRT.length - 1) true s.WRT).getD i default = _
          unfold LC_ResetResultsWP
          rw [LC_ResetResultsWPFrom_getD 0 (s.WRT.length - 1) true default s.WRT 0 i hi,
            if_pos (show 0 ≤ 0 + i ∧ 0 + i ≤ s.WRT.length - 1 from by omega)]
        exact ⟨fun _ => (by rw [hgd]; rfl), fun hcon => absurd (Or.inl hall) hcon⟩
    · have hlt : wp < s.WRT.length := by
        rcases htarget with h | h
        · exact absurd h hall
        · exact h
      have heq : LC_ResetWPStatsCmd true wp s =
          { s with
            WRT := LC_ResetResultsWP wp wp true s.WRT
            AppData := { s.AppData with CmdCount := inc8 s.AppData.CmdCount } } := by
        unfold LC_ResetWPStatsCmd
        rw [if_pos rfl, if_neg hall, if_pos hlt]
      refine ⟨by rw [heq], ?_, by rw [heq], ?_⟩
      · rw [heq]
        show (LC_ResetResultsWP wp wp true s.WRT).length = s.WRT.length
        unfold LC_ResetResultsWP
        exact LC_ResetResultsWPFrom_length wp wp true s.WRT 0
      · intro i hi
        constructor
        · intro hin
          have hieq : i = wp := by
            rcases hin with h | h
            · exact absurd h hall
            · exact h
          rw [heq]
          show (LC_ResetResultsWP wp wp true s.WRT).getD i default = _
          unfold LC_ResetResultsWP
          rw [LC_ResetResultsWPFrom_getD wp wp true default s.WRT 0 i hi,
            if_pos (show wp ≤ 0 + i ∧ 0 + i ≤ wp from by omega)]
          rfl
        · intro hnin
          have hine : i ≠ wp := fun h => hnin (Or.inr h)
          rw [heq]
          show (LC_ResetResultsWP wp wp true s.WRT).getD i default = _
          unfold LC_ResetResultsWP
          rw [LC_ResetResultsWPFrom_getD wp wp true default s.WRT 0 i hi,
            if_neg (show ¬(wp ≤ 0 + i ∧ 0 + i ≤ wp) from by omega)]

/-- Witness for the amended C7: RESET_WP_STATS on watchpoint 0 keeps the
result, countdown and the ART, and bumps `CmdCount`. -/
theorem LC_C7_stats_reset_scope_witness :
    (LC_ResetWPStatsCmd true 0 c7St).ART = c7St.ART ∧
      (LC_ResetWPStatsCmd true 0 c7St).AppData =
        { c7St.AppData with CmdCount := inc8 c7St.AppData.CmdCount } := by
  have h := (LC_C7_stats_reset_scope c7St [] 0 0).2 (by decide)
  exact ⟨h.1, h.2.2.1⟩

/-- The state used for C1: eight watchpoints with results
`[TRUE, FALSE, STALE, ERROR, TRUE, TRUE, FALSE, STALE]`. -/
def c1St : LCState :=
  { AppData := mkAppData LC_STATE_ACTIVE
    WRT := [mkWRTEntry LC_WATCH_TRUE 0, mkWRTEntry LC_WATCH_FALSE 0,
      mkWRTEntry LC_WATCH_STALE 0, mkWRTEntry LC_WATCH_ERROR 0,
      mkWRTEntry LC_WATCH_TRUE 0, mkWRTEntry LC_WATCH_TRUE 0,
      mkWRTEntry LC_WATCH_FALSE 0, mkWRTEntry LC_WATCH_STALE 0]
    ART := [] }

/-- Counterexample to C1 as stated: on the quoted example the housekeeping
request does NOT produce `WPResults = [0xE4, 0x16]` (the stated layout and
codes give `[0xC6, 0x1A]`). -/
theorem LC_C1_counterexample :
    (LC_HousekeepingReq true 8 c1St).map LC_HkPayload.WPResults ≠
      some [0xE4, 0x16] := by
  decide

/-- C1 (amended).  After a valid-length housekeeping request, `WPResults`
byte `k` encodes watchpoints `4k..4k+3` — `4k+3` in bits 7-6, `4k+2` in
bits 5-4, `4k+1` in bits 3-2, `4k` in bits 1-0 — with codes `STALE=00`,
`FALSE=01`, `TRUE=10`, `ERROR=11` and any unknown result encoded as
`ERROR`; on the example `[TRUE, FALSE, STALE, ERROR, TRUE, TRUE, FALSE,
STALE]` with `MAX_WATCHPOINTS = 8` this yields `WPResults = [0xC6, 0x1A]`. -/
theorem LC_C1_wp_packing :
    (∀ (wrt : List Nat) (k : Nat), 4 * k + 3 < wrt.length →
      (LC_PackWPResults wrt).getD k 0 =
        (LC_WPByteCode (wrt.getD (4 * k + 3) 0) <<< 6) |||
        (LC_WPByteCode (wrt.getD (4 * k + 2) 0) <<< 4) |||
        (LC_WPByteCode (wrt.getD (4 * k + 1) 0) <<< 2) |||
        LC_WPByteCode (wrt.getD (4 * k) 0))
  ∧ (LC_WPByteCode LC_WATCH_STALE = 0 ∧ LC_WPByteCode LC_WATCH_FALSE = 1 ∧
      LC_WPByteCode LC_WATCH_TRUE = 2 ∧ LC_WPByteCode LC_WATCH_ERROR = 3)
  ∧ (∀ r : Nat, r ≠ LC_WATCH_STALE → r ≠ LC_WATCH_FALSE → r ≠ LC_WATCH_TRUE →
      LC_WPByteCode r = 3)
  ∧ (∀ (s : LCState) (n : Nat) (hk : LC_HkPayload),
      LC_HousekeepingReq true n s = some hk →
      hk.WPResults = LC_PackWPResults (s.WRT.map fun e => e.WatchResult))
  ∧ (LC_HousekeepingReq true 8 c1St).map LC_HkPayload.WPResults =
      some [0xC6, 0x1A] := by
  refine ⟨?_, ⟨rfl, rfl, rfl, rfl⟩, ?_, ?_, ?_⟩
  · intro wrt k h
    rw [LC_PackWPResults_getD k wrt h]
    rfl
  · intro r h1 h2 h3
    unfold LC_WPByteCode
    rw [if_neg h1, if_neg h2, if_neg h3]
    rfl
  · intro s n hk h
    unfold LC_HousekeepingReq at h
    rw [if_pos rfl] at h
    have hpk := Option.some.inj h
    subst hpk
    rfl
  · decide

/-- Witness for the amended C1: the packing layout at the first byte of a
four-entry table. -/
theorem LC_C1_wp_packing_witness :
    (LC_PackWPResults [1, 0, 255, 2]).getD 0 0 =
      (LC_WPByteCode (([1, 0, 255, 2] : List Nat).getD 3 0) <<< 6) |||
      (LC_WPByteCode (([1, 0, 255, 2] : List Nat).getD 2 0) <<< 4) |||
      (LC_WPByteCode (([1, 0, 255, 2] : List Nat).getD 1 0) <<< 2) |||
      LC_WPByteCode (([1, 0, 255, 2] : List Nat).getD 0 0) :=
  LC_C1_wp_packing.1 [1, 0, 255, 2] 0 (by decide)

/-- The state used by the C8 witness: four actionpoints, two of them
`ACTIVE` and one `PERMOFF`. -/
def c8St : LCState :=
  { AppData := mkAppData LC_STATE_ACTIVE
    WRT := []
    ART := [mkARTEntry LC_APSTATE_ACTIVE, mkARTEntry LC_APSTATE_PERMOFF,
      mkARTEntry LC_APSTATE_DISABLED, mkARTEntry LC_APSTATE_ACTIVE] }

/-- C8.  After a valid-length housekeeping request, `ActiveAPs` is exactly
the number of actionpoints whose `CurrentState` is `ACTIVE`, and
`APResults` byte `k` packs AP `2k+1` into bits 7-4 (state in bits 7-6,
result in bits 5-4) and AP `2k` into bits 3-0 (state in bits 3-2, result
in bits 1-0), with state codes `NOT_USED=00`, `ACTIVE=01`, `PASSIVE=10`,
`DISABLED=11` — `PERMOFF` and unknown states reported as `NOT_USED` — and
result codes `STALE=00`, `PASS=01`, `FAIL=10`, `ERROR=11`. -/
theorem LC_C8_hk_ap_packing (s : LCState) (n : Nat) (hk : LC_HkPayload)
    (heven : s.ART.length % 2 = 0) (hsmall : s.ART.length ≤ 255)
    (hreq : LC_HousekeepingReq true n s = some hk) :
    hk.ActiveAPs = s.ART.countP (fun e => e.CurrentState == LC_APSTATE_ACTIVE)
  ∧ (∀ k, 2 * k + 1 < s.ART.length →
      hk.APResults.getD k 0 =
        (LC_APStateCode (s.ART.getD (2 * k + 1) default).CurrentState <<< 6) |||
        (LC_APResultCode (s.ART.getD (2 * k + 1) default).ActionResult <<< 4) |||
        (LC_APStateCode (s.ART.getD (2 * k) default).CurrentState <<< 2) |||
        LC_APResultCode (s.ART.getD (2 * k) default).ActionResult)
  ∧ (LC_APStateCode LC_APSTATE_ACTION_NOT_USED = 0 ∧ LC_APStateCode LC_APSTATE_ACTIVE = 1 ∧
      LC_APStateCode LC_APSTATE_PASSIVE = 2 ∧ LC_APStateCode LC_APSTATE_DISABLED = 3 ∧
      LC_APStateCode LC_APSTATE_PERMOFF = 0)
  ∧ (∀ st : Nat, st ≠ LC_APSTATE_ACTION_NOT_USED → st ≠ LC_APSTATE_ACTIVE →
      st ≠ LC_APSTATE_PASSIVE → st ≠ LC_APSTATE_DISABLED → LC_APStateCode st = 0)
  ∧ (LC_APResultCode LC_ACTION_STALE = 0 ∧ LC_APResultCode LC_ACTION_PASS = 1 ∧
      LC_APResultCode LC_ACTION_FAIL = 2 ∧ LC_APResultCode LC_ACTION_ERROR = 3)
  ∧ (∀ r : Nat, r ≠ LC_ACTION_STALE → r ≠ LC_ACTION_PASS → r ≠ LC_ACTION_FAIL →
      LC_APResultCode r = 3) := by
  unfold LC_HousekeepingReq at hreq
  rw [if_pos rfl] at hreq
  have hpk := Option.some.inj hreq
  subst hpk
  refine ⟨?_, ?_, ⟨rfl, rfl, rfl, rfl, rfl⟩, ?_, ⟨rfl, rfl, rfl, rfl⟩, ?_⟩
  · show (LC_PackAPLoop s.ART 0).2 =
      s.ART.countP (fun e => e.CurrentState == LC_APSTATE_ACTIVE)
    have hb : 0 + s.ART.countP (fun e => e.CurrentState == LC_APSTATE_ACTIVE) ≤ 255 := by
      have hc := List.countP_le_length (fun e => e.CurrentState == LC_APSTATE_ACTIVE)
        (l := s.ART)
      omega
    rw [LC_PackAPLoop_active s.ART heven 0 hb]
    exact Nat.zero_add _
  · intro k hk2
    show (LC_PackAPLoop s.ART 0).1.getD k 0 = _
    rw [LC_PackAPLoop_getD k s.ART 0 hk2]
    rfl
  · intro st h1 h2 h3 h4
    unfold LC_APStateCode
    rw [if_neg h1, if_neg h2, if_neg h3, if_neg h4]
    rfl
  · intro r h1 h2 h3
    unfold LC_APResultCode
    rw [if_neg h1, if_neg h2, if_neg h3]
    rfl

/-- Witness for C8: on `c8St` the housekeeping `ActiveAPs` is the number of
`ACTIVE` actionpoints (2 of 4, with one `PERMOFF` present). -/
theorem LC_C8_hk_ap_packing_witness :
    ((LC_HousekeepingReq true 0 c8St).getD default).ActiveAPs =
      c8St.ART.countP (fun e => e.CurrentState == LC_APSTATE_ACTIVE) :=
  (LC_C8_hk_ap_packing c8St 0 ((LC_HousekeepingReq true 0 c8St).getD default)
    (by decide) (by decide) (by decide)).1
